import Mathlib

/-!
Verification development for the supervisor scripts of this repository.

The embedding below models, as pure Lean functions, the control flow of
the supervisor-related code:

* `src/test.py` — `log_error`, `safe_run_script`, `repeat_function`, `main`;
* `src/main.py` — `is_process_running`, `start_secondary_script_if_needed`,
  `process_and_save_local_file_to_db`, `clear_local_log_file`, and the
  flush sequence of the `__main__` block;
* `src/sc.py` — `find_available_port`.

External effects (spawning a process, the wall clock, the filesystem, the
SQLite database, sockets) are modelled by explicit parameters and by
traces of abstract actions, so that every definition is executable.
-/

/-! ## Embedding of `src/test.py` -/

/-- An observable action of the code in `src/test.py`: spawning a
subprocess via Popen, appending an entry to the log file via
`log_error`, or sleeping a number of seconds. `exited` marks the
supervisor process returning from `main`; the step functions below
never emit it, mirroring that `main` has no return path. -/
inductive TAction where
  | popen (script : String)
  | logged
  | sleep (seconds : Nat)
  | exited
deriving DecidableEq, Repr

/-- Outcome of the `subprocess.Popen` call inside `safe_run_script`:
either it returns a process handle, or it raises an exception
(`FileNotFoundError` when the interpreter or script path does not
resolve, or any other launch error — the `except Exception` clause of
the source does not distinguish them). -/
inductive LaunchOutcome where
  | ok (pid : Nat)
  | raises
deriving DecidableEq, Repr

/-- The literal level token written by `log_error` in `src/test.py`
(the format string is the ctime, then " - ERROR:", then the traceback). -/
def log_error_level : String := "ERROR"

/-- The text `log_error` appends to `console.log`, as a function of the
ctime string and the formatted traceback. -/
def log_error_text (ctime traceback : String) : String :=
  ctime ++ " - " ++ log_error_level ++ ":\n" ++ traceback ++ "\n\n"

/-- Trace of `safe_run_script script` in `src/test.py`: it calls
`subprocess.Popen([sys.executable, script])` exactly once; if that call
raises, the exception is logged; then the function returns. It never
waits on the child, never sleeps, and never calls Popen again. -/
def safe_run_script (outcome : LaunchOutcome) (script : String) : List TAction :=
  match outcome with
  | .ok _ => [.popen script]
  | .raises => [.popen script, .logged]

/-- Number of launch attempts (Popen calls) in a trace. -/
def count_launches (tr : List TAction) : Nat :=
  tr.countP fun a => match a with | .popen _ => true | _ => false

/-- Number of log entries in a trace. -/
def count_logs (tr : List TAction) : Nat :=
  tr.countP fun a => match a with | .logged => true | _ => false

/-- Whether a trace contains any sleep action. -/
def has_sleep (tr : List TAction) : Bool :=
  tr.any fun a => match a with | .sleep _ => true | _ => false

/-- Outcome of one invocation of the repeating body in
`repeat_function` of `src/test.py`: the body either runs to the end of
the `try` block or raises after `runtime` seconds of work.  In the
source the `try` block is the action plus `time.sleep(60)`; on an
exception the `except` clause logs and then also sleeps 60 seconds. -/
inductive BodyOutcome where
  | succeeds (runtime : Nat)
  | raises (runtime : Nat)
deriving DecidableEq, Repr

/-- Wall-clock duration of one iteration of the `while True` loop in
`repeat_function`: the body runs for `runtime` seconds and, on both the
success path and the exception path, the loop then sleeps 60 seconds
before the next iteration. -/
def repeat_iter_duration : BodyOutcome → Nat
  | .succeeds d => d + 60
  | .raises d => d + 60

/-- Whether one iteration of `repeat_function` writes a log entry:
only the exception path calls `log_error`. -/
def repeat_iter_logs : BodyOutcome → Bool
  | .succeeds _ => false
  | .raises _ => true

/-- Start time of the k-th invocation (0-indexed) of the repeating body
in `repeat_function`, given the outcome of every iteration; the loop
starts at time 0 and each iteration takes `repeat_iter_duration`. -/
def repeat_fire_time (outs : Nat → BodyOutcome) : Nat → Nat
  | 0 => 0
  | k + 1 => repeat_fire_time outs k + repeat_iter_duration (outs k)

/-- Step semantics of `main` in `src/test.py` after the worker threads
are spawned: `main` sits in `while True: time.sleep(1)`; if that wait
raises at step `k` (the `except` clause of `main`), it logs the error
and then enters `while True: time.sleep(60)` forever.  `fault = none`
means the wait never raises.  Sleeps themselves are assumed not to
raise inside the final loop (the source has no handler there). -/
def main_trace (fault : Option Nat) (n : Nat) : TAction :=
  match fault with
  | none => .sleep 1
  | some k => if n < k then .sleep 1 else if n = k then .logged else .sleep 60

/-! ## Theorems for claims C1 to C5 -/

/-- C1 counterexample: the supervision of a worker in `src/test.py` is a
single `safe_run_script` call, whose trace for the worker
"script1.py" launching successfully is exactly one Popen and nothing
else — fewer than the two launches that even a single relaunch after
the worker exits would require, and with no restart-delay sleep. -/
theorem C1_no_relaunch_counterexample :
    safe_run_script (.ok 42) "script1.py" = [.popen "script1.py"] ∧
    count_launches (safe_run_script (.ok 42) "script1.py") = 1 ∧
    ¬ 2 ≤ count_launches (safe_run_script (.ok 42) "script1.py") ∧
    has_sleep (safe_run_script (.ok 42) "script1.py") = false := by
  refine ⟨rfl, by decide, by decide, by decide⟩

/-- C1 amended: `safe_run_script` makes exactly one launch attempt per
worker, never sleeps, and its trace is finite, so a worker that exits
is never relaunched: an exit is final, and there is no keep-alive loop
with a restart delay for workers. -/
theorem C1_single_launch (outcome : LaunchOutcome) (script : String) :
    count_launches (safe_run_script outcome script) = 1 ∧
    has_sleep (safe_run_script outcome script) = false := by
  cases outcome <;> simp [safe_run_script, count_launches, has_sleep]

/-- C2 counterexample: with the repeating body taking 30 seconds each
time, the first repeat fires at 90 seconds, not at 1 * 60: the loop in
`repeat_function` sleeps a full interval after the body finishes, so
the fire time depends on the body runtime. -/
theorem C2_drift_counterexample :
    repeat_fire_time (fun _ => .succeeds 30) 1 = 90 ∧
    repeat_fire_time (fun _ => .succeeds 30) 1 ≠ 1 * 60 := by
  constructor
  · rfl
  · decide

/-- C2 amended: `repeat_function` keeps no `next_fire_time`; it sleeps
the fixed 60-second interval after each invocation of the body, so for
a body of fixed runtime d the k-th fire occurs at k * (d + 60): the
cadence drifts by d per fire (now-plus-interval semantics, not
previous-fire-plus-interval). -/
theorem C2_fire_time_drifts (d k : Nat) :
    repeat_fire_time (fun _ => .succeeds d) k = k * (d + 60) := by
  induction k with
  | zero => simp [repeat_fire_time]
  | succ n ih =>
      simp [repeat_fire_time, repeat_iter_duration, ih, Nat.succ_mul]

/-- C3: an invocation of the repeating body that raises is caught by
the `except` clause of `repeat_function`, which writes a log entry at
the ERROR level and continues: every iteration of the always-failing
loop logs, the next invocation still occurs exactly one iteration
duration later, and the cadence is the same as that of an
always-succeeding body of equal runtime — the loop never terminates
because of the failure. -/
theorem C3_fault_isolation (d k : Nat) (ctime tb : String) :
    repeat_iter_logs (.raises d) = true ∧
    log_error_text ctime tb = ctime ++ " - " ++ log_error_level ++ (":\n" ++ tb ++ "\n\n") ∧
    log_error_level = "ERROR" ∧
    repeat_fire_time (fun _ => .raises d) (k + 1) =
      repeat_fire_time (fun _ => .raises d) k + (d + 60) ∧
    repeat_fire_time (fun _ => .raises d) k =
      repeat_fire_time (fun _ => .succeeds d) k := by
  refine ⟨rfl, by simp [log_error_text, String.append_assoc], rfl, rfl, ?_⟩
  induction k with
  | zero => rfl
  | succ n ih => simp [repeat_fire_time, repeat_iter_duration, ih]

/-- C4 counterexample: when the blocking wait of `main` raises, the
error is logged through `log_error`, whose level token is the literal
"ERROR", not "FATAL" — at fault step 3 the trace logs at step 3 and the
entry written carries the ERROR level. -/
theorem C4_error_not_fatal_counterexample :
    main_trace (some 3) 3 = .logged ∧
    log_error_level = "ERROR" ∧
    log_error_level ≠ "FATAL" := by
  refine ⟨rfl, rfl, by decide⟩

/-- C4 amended: `main` never returns — its trace never contains the
`exited` action — and when the blocking wait raises at step k, the
error is logged (at ERROR, via `log_error`, not FATAL) and every later
step is a 60-second sleep: a permanent sleep-forever idle-retry loop. -/
theorem C4_never_exits (fault : Option Nat) (n : Nat) :
    main_trace fault n ≠ .exited ∧
    (∀ k, fault = some k → k < n → main_trace fault n = .sleep 60) := by
  constructor
  · cases fault with
    | none => simp [main_trace]
    | some k =>
        simp only [main_trace]
        split
        · simp
        · split <;> simp
  · intro k hk hkn
    subst hk
    simp [main_trace, Nat.not_lt.mpr (Nat.le_of_lt hkn), Nat.ne_of_gt hkn]

/-- C4 witness: at the concrete fault step 2 and observation step 5 the
amended claim holds: step 5 of the trace is a 60-second sleep and the
trace never exits. -/
theorem C4_never_exits_witness :
    main_trace (some 2) 5 ≠ .exited ∧ main_trace (some 2) 5 = .sleep 60 := by
  refine ⟨(C4_never_exits (some 2) 5).1, (C4_never_exits (some 2) 5).2 2 rfl (by decide)⟩

/-- C5 counterexample: a launch failure other than a missing executable
raises out of Popen exactly like `FileNotFoundError` does, and
`safe_run_script` handles both identically: one Popen call, one log
entry, no restart-delay sleep and no second launch attempt — the trace
for a failing launch of "script1.py" is Popen then log, so a transient
`LaunchFailed` is not retried after `restart_delay`. -/
theorem C5_launchfailed_not_retried_counterexample :
    safe_run_script .raises "script1.py" = [.popen "script1.py", .logged] ∧
    count_launches (safe_run_script .raises "script1.py") = 1 ∧
    count_logs (safe_run_script .raises "script1.py") = 1 ∧
    has_sleep (safe_run_script .raises "script1.py") = false := by
  refine ⟨rfl, by decide, by decide, by decide⟩

/-- C5 amended: every launch failure is terminal for the worker: the
`except Exception` clause of `safe_run_script` catches any exception
from Popen, logs it exactly once, and the function returns — one launch
attempt, one ERROR log, no sleep, no retry, for `ExecutableNotFound`
and for any other launch error alike. -/
theorem C5_any_launch_failure_terminal (script : String) :
    count_launches (safe_run_script .raises script) = 1 ∧
    count_logs (safe_run_script .raises script) = 1 ∧
    has_sleep (safe_run_script .raises script) = false := by
  simp [safe_run_script, count_launches, count_logs, has_sleep]

/-! ## Embedding of `src/main.py` -/

/-- `is_process_running` from `src/main.py`: `None` is never running;
otherwise `os.kill(pid, 0)` succeeds exactly when the OS reports the
pid alive, modelled by the predicate `alive`. -/
def is_process_running (alive : Int → Bool) : Option Int → Bool
  | none => false
  | some pid => alive pid

/-- Outcome of the `subprocess.Popen` call in
`start_secondary_script_if_needed`: a handle with a pid,
`FileNotFoundError` (script path does not resolve), or any other
exception. -/
inductive PopenResult where
  | ok (pid : Int)
  | fileNotFound
  | otherError
deriving DecidableEq, Repr

/-- Result of one run of `start_secondary_script_if_needed`: the
contents of the pid file afterwards (`none` when the file is absent or
unparsable) and whether `subprocess.Popen` was called. -/
structure StartResult where
  pid_file : Option Int
  popen_called : Bool
deriving DecidableEq, Repr

/-- `start_secondary_script_if_needed` from `src/main.py`: it reads the
persisted pid; if that pid is truthy (present and nonzero) and the
process is running, it returns without launching.  Otherwise it calls
Popen: on success it persists the new pid; on `FileNotFoundError` or
any other exception it clears the pid file. -/
def start_secondary_script_if_needed (alive : Int → Bool) (popen : PopenResult)
    (pid_file : Option Int) : StartResult :=
  let current_pid := pid_file
  if (match current_pid with | some p => decide (p ≠ 0) | none => false) &&
      is_process_running alive current_pid then
    ⟨pid_file, false⟩
  else
    match popen with
    | .ok pid => ⟨some pid, true⟩
    | .fileNotFound => ⟨none, true⟩
    | .otherError => ⟨none, true⟩

/-- Python `str.split` with a one-character separator, over the
characters of the string: every occurrence of the separator starts a
new field, adjacent separators produce empty fields, and the empty
string yields one empty field. -/
def py_split (sep : Char) : List Char → List (List Char)
  | [] => [[]]
  | c :: cs =>
    match py_split sep cs with
    | [] => if c = sep then [[], []] else [[c]]
    | g :: gs => if c = sep then [] :: g :: gs else (c :: g) :: gs

/-- ASCII whitespace as removed by Python `str.strip` with no
argument. -/
def py_is_space (c : Char) : Bool :=
  c = ' ' || c = '\t' || c = '\n' || c = '\r' || c = '\x0b' || c = '\x0c'

/-- Python `str.strip()`: drop leading and trailing whitespace. -/
def py_strip (s : List Char) : List Char :=
  ((s.dropWhile py_is_space).reverse.dropWhile py_is_space).reverse

/-- A row of the `system_metrics` table, in the column order of
`initialize_db` and of the INSERT in `process_and_save_local_file_to_db`.
`F` stands in for the host float type produced by Python `float`;
text is kept as the character list of the field. -/
structure MetricsRow (F : Type) where
  timestamp : Int
  computer_id : List Char
  cpu_percent : F
  memory_percent : F
  disk_usage_root_percent : F
  network_bytes_sent : Int
  network_bytes_recv : Int
deriving DecidableEq

/-- One line of `thing.txt` as parsed by
`process_and_save_local_file_to_db`: split on "," into exactly 7
fields, then `int(parts[0])`, `parts[1]` as text, `float(parts[2..4])`,
`int(parts[5])`, `int(parts[6])`; any `ValueError` (a parse returning
`none`) skips the line.  `pyInt` and `pyFloat` model the Python `int`
and `float` constructors. -/
def parse_metrics_line {F : Type} (pyInt : List Char → Option Int)
    (pyFloat : List Char → Option F) (line : List Char) : Option (MetricsRow F) :=
  match py_split ',' line with
  | [p0, p1, p2, p3, p4, p5, p6] =>
    match pyInt p0, pyFloat p2, pyFloat p3, pyFloat p4, pyInt p5, pyInt p6 with
    | some t, some cpu, some mem, some dsk, some ns, some nr =>
        some ⟨t, p1, cpu, mem, dsk, ns, nr⟩
    | _, _, _, _, _, _ => none
  | _ => none

/-- The rows inserted from a file content by
`process_and_save_local_file_to_db`: the content is read line by line,
each line is stripped, blank lines are skipped, and every line whose
parse succeeds contributes one row in file order. -/
def metrics_rows {F : Type} (pyInt : List Char → Option Int)
    (pyFloat : List Char → Option F) (content : List Char) : List (MetricsRow F) :=
  (py_split '\n' content).filterMap fun l =>
    let s := py_strip l
    if s.isEmpty then none else parse_metrics_line pyInt pyFloat s

/-- `process_and_save_local_file_to_db` from `src/main.py`.  The file is
`none` when `os.path.exists` is false; an existing file of size 0 is
the empty content.  `read_fails` models an exception while opening or
iterating the file (the outer `except` clause): the transaction is
rolled back, so the database is unchanged and the function returns
`False`.  Otherwise the parsed rows are inserted, the transaction is
committed, and the function returns `True` — also when every line was
skipped. -/
def process_and_save_local_file_to_db {F : Type} (pyInt : List Char → Option Int)
    (pyFloat : List Char → Option F) (file : Option (List Char)) (read_fails : Bool)
    (db : List (MetricsRow F)) : Bool × List (MetricsRow F) :=
  match file with
  | none => (true, db)
  | some content =>
    if content.isEmpty then (true, db)
    else if read_fails then (false, db)
    else (true, db ++ metrics_rows pyInt pyFloat content)

/-- `clear_local_log_file` from `src/main.py`: truncates the file to 0
bytes when it exists, does nothing when it does not. -/
def clear_local_log_file : Option (List Char) → Option (List Char)
  | none => none
  | some _ => some []

/-- The flush sequence at the end of the `__main__` block of
`src/main.py`: process the local file into the database, and only if
that returned `True` clear the local file; on `False` the file is left
for the next attempt.  Returns the file content and database
afterwards. -/
def main_flush_step {F : Type} (pyInt : List Char → Option Int)
    (pyFloat : List Char → Option F) (file : Option (List Char)) (read_fails : Bool)
    (db : List (MetricsRow F)) : Option (List Char) × List (MetricsRow F) :=
  let r := process_and_save_local_file_to_db pyInt pyFloat file read_fails db
  if r.1 then (clear_local_log_file file, r.2) else (file, r.2)

/-- The well-formedness condition on a stripped line that claim C9
states: exactly 7 comma-separated fields, fields 0, 5, 6 parse as
integers and fields 2, 3, 4 parse as floats. -/
def line_well_formed {F : Type} (pyInt : List Char → Option Int)
    (pyFloat : List Char → Option F) (s : List Char) : Bool :=
  match py_split ',' s with
  | [p0, _, p2, p3, p4, p5, p6] =>
      (pyInt p0).isSome && (pyFloat p2).isSome && (pyFloat p3).isSome &&
      (pyFloat p4).isSome && (pyInt p5).isSome && (pyInt p6).isSome
  | _ => false

/-! ## Embedding of `src/sc.py` -/

/-- `find_available_port` from `src/sc.py`: for `i` in
`range(max_attempts)` it tries to bind and listen on
`start_port + i`, returning the first port for which that succeeds;
every failure (address in use, any other `OSError`, any other
exception) is caught and the loop continues; after the loop it returns
`None`.  `bindable` models whether bind-and-listen succeeds on a
port. -/
def find_available_port (bindable : Nat → Bool) :
    (start_port : Nat) → (max_attempts : Nat) → Option Nat
  | _, 0 => none
  | start_port, n + 1 =>
    if bindable start_port then some start_port
    else find_available_port bindable (start_port + 1) n

/-! ## Theorems for claims C6 to C10 -/

/-- C6: the flush sequence of the `__main__` block of `src/main.py`
truncates the local buffer file only after
`process_and_save_local_file_to_db` has returned `True`; when
processing fails the truncation step is not performed and both the
buffer file and the database are unchanged, so the next attempt sees
the same data. -/
theorem C6_truncate_only_after_success {F : Type} (pyInt : List Char → Option Int)
    (pyFloat : List Char → Option F) (file : Option (List Char)) (read_fails : Bool)
    (db : List (MetricsRow F)) :
    ((process_and_save_local_file_to_db pyInt pyFloat file read_fails db).1 = false →
      main_flush_step pyInt pyFloat file read_fails db = (file, db)) ∧
    ((process_and_save_local_file_to_db pyInt pyFloat file read_fails db).1 = true →
      (main_flush_step pyInt pyFloat file read_fails db).1 = clear_local_log_file file) := by
  cases file with
  | none => simp [main_flush_step, process_and_save_local_file_to_db]
  | some content =>
      by_cases hc : content.isEmpty
      · simp [main_flush_step, process_and_save_local_file_to_db,
          clear_local_log_file, hc]
      · cases read_fails with
        | true =>
            simp [main_flush_step, process_and_save_local_file_to_db, hc]
        | false =>
            simp [main_flush_step, process_and_save_local_file_to_db,
              clear_local_log_file, hc]

/-- C6 witness: with the concrete one-character buffer content and a
failing read, processing returns `False` and the flush sequence leaves
the file and the database untouched. -/
theorem C6_truncate_only_after_success_witness :
    (process_and_save_local_file_to_db (fun _ => none) (fun _ => (none : Option Int))
      (some ['x']) true ([] : List (MetricsRow Int))).1 = false ∧
    main_flush_step (fun _ => none) (fun _ => (none : Option Int))
      (some ['x']) true ([] : List (MetricsRow Int)) = (some ['x'], []) := by
  have h : (process_and_save_local_file_to_db (fun _ => none)
      (fun _ => (none : Option Int)) (some ['x']) true ([] : List (MetricsRow Int))).1
      = false := by decide
  exact ⟨h, (C6_truncate_only_after_success (fun _ => none) (fun _ => none)
    (some ['x']) true []).1 h⟩

/-- C7: when the pid file holds a truthy pid whose process is still
running, `start_secondary_script_if_needed` returns before calling
Popen: no second instance of the secondary script is launched and the
recorded pid is unchanged. -/
theorem C7_no_duplicate_launch (alive : Int → Bool) (popen : PopenResult) (p : Int)
    (hp : p ≠ 0) (ha : alive p = true) :
    start_secondary_script_if_needed alive popen (some p) = ⟨some p, false⟩ := by
  simp [start_secondary_script_if_needed, is_process_running, hp, ha]

/-- C7 witness: with the recorded pid 5 alive, no launch happens and
the pid file keeps 5. -/
theorem C7_no_duplicate_launch_witness :
    (5 : Int) ≠ 0 ∧ (fun q : Int => decide (q = 5)) 5 = true ∧
    start_secondary_script_if_needed (fun q : Int => decide (q = 5))
      .fileNotFound (some 5) = ⟨some 5, false⟩ :=
  ⟨by decide, by decide,
    C7_no_duplicate_launch (fun q : Int => decide (q = 5)) .fileNotFound 5
      (by decide) (by decide)⟩

/-- C8: when the local file does not exist, or exists with size 0,
`process_and_save_local_file_to_db` returns `True` and inserts no rows:
the database is unchanged and the caller proceeds to the clear step. -/
theorem C8_missing_or_empty_file {F : Type} (pyInt : List Char → Option Int)
    (pyFloat : List Char → Option F) (read_fails : Bool) (db : List (MetricsRow F)) :
    process_and_save_local_file_to_db pyInt pyFloat none read_fails db = (true, db) ∧
    process_and_save_local_file_to_db pyInt pyFloat (some []) read_fails db = (true, db) := by
  exact ⟨rfl, rfl⟩

/-- A stripped line parses to a row exactly when it is well formed in
the sense of claim C9: 7 comma-separated fields with fields 0, 5, 6
integers and fields 2, 3, 4 floats. -/
theorem parse_metrics_line_isSome {F : Type} (pyInt : List Char → Option Int)
    (pyFloat : List Char → Option F) (s : List Char) :
    (parse_metrics_line pyInt pyFloat s).isSome = line_well_formed pyInt pyFloat s := by
  unfold parse_metrics_line line_well_formed
  rcases h : py_split ',' s with
    _ | ⟨p0, _ | ⟨p1, _ | ⟨p2, _ | ⟨p3, _ | ⟨p4, _ | ⟨p5, _ | ⟨p6, _ | ⟨p7, rest⟩⟩⟩⟩⟩⟩⟩⟩ <;>
    simp only [h] <;>
    try rfl
  cases pyInt p0 <;> cases pyFloat p2 <;> cases pyFloat p3 <;> cases pyFloat p4 <;>
    cases pyInt p5 <;> cases pyInt p6 <;> simp

/-- C9: on a readable file, `process_and_save_local_file_to_db` returns
`True` and appends to the database exactly the rows of the stripped
non-blank lines whose parse succeeds, and a line parses exactly when it
splits on "," into 7 fields with fields 0, 5, 6 parsing as integers and
fields 2, 3, 4 as floats; malformed lines are skipped without aborting
and the function returns `True` even when every line was skipped. -/
theorem C9_inserted_rows {F : Type} (pyInt : List Char → Option Int)
    (pyFloat : List Char → Option F) (content : List Char) (db : List (MetricsRow F)) :
    process_and_save_local_file_to_db pyInt pyFloat (some content) false db =
      (true, db ++ metrics_rows pyInt pyFloat content) ∧
    ∀ s : List Char, (parse_metrics_line pyInt pyFloat s).isSome =
      line_well_formed pyInt pyFloat s := by
  constructor
  · cases content with
    | nil =>
        have hrows : metrics_rows pyInt pyFloat [] = ([] : List (MetricsRow F)) := rfl
        simp [process_and_save_local_file_to_db, hrows]
    | cons c cs =>
        simp [process_and_save_local_file_to_db]
  · intro s
    exact parse_metrics_line_isSome pyInt pyFloat s

/-- C10: `find_available_port` returns either the first port in
[start_port, start_port + max_attempts) on which bind-and-listen
succeeds, or `None` exactly when no port in that range can be bound; a
returned port always lies in the range. -/
theorem C10_first_available_port (bindable : Nat → Bool) (start n p : Nat) :
    (find_available_port bindable start n = some p →
      start ≤ p ∧ p < start + n ∧ bindable p = true ∧
      ∀ q, start ≤ q → q < p → bindable q = false) ∧
    (find_available_port bindable start n = none ↔
      ∀ i, i < n → bindable (start + i) = false) := by
  induction n generalizing start p with
  | zero =>
      constructor
      · intro h
        simp [find_available_port] at h
      · constructor
        · intro _ i hi
          exact absurd hi (Nat.not_lt_zero i)
        · intro _
          rfl
  | succ n ih =>
      by_cases hb : bindable start
      · constructor
        · intro h
          simp [find_available_port, hb] at h
          subst h
          exact ⟨Nat.le_refl _, by omega, hb, fun q hq hq2 => absurd hq (by omega)⟩
        · constructor
          · intro h
            simp [find_available_port, hb] at h
          · intro h
            have h0 := h 0 (by omega)
            simp [hb] at h0
      · constructor
        · intro h
          simp only [find_available_port, hb, if_false] at h
          obtain ⟨h1, h2, h3, h4⟩ := (ih (start + 1) p).1 h
          refine ⟨by omega, by omega, h3, fun q hq hq2 => ?_⟩
          rcases Nat.eq_or_lt_of_le hq with heq | hlt
          · subst heq
            cases hbb : bindable start
            · rfl
            · exact absurd hbb hb
          · exact h4 q (by omega) hq2
        · rw [show find_available_port bindable start (n + 1) =
              find_available_port bindable (start + 1) n by
                simp [find_available_port, hb]]
          rw [(ih (start + 1) p).2]
          constructor
          · intro h i hi
            cases i with
            | zero =>
                cases hbb : bindable (start + 0)
                · rfl
                · exact absurd (by simpa using hbb) hb
            | succ j =>
                have := h j (by omega)
                have harith : start + 1 + j = start + (j + 1) := by omega
                rwa [harith] at this
          · intro h j hj
            have := h (j + 1) (by omega)
            have harith : start + (j + 1) = start + 1 + j := by omega
            rwa [harith] at this

/-- C10 witness: with only port 8082 bindable, the search starting at
8080 with 5 attempts returns 8082, which is the first bindable port of
the range. -/
theorem C10_first_available_port_witness :
    find_available_port (fun q => decide (q = 8082)) 8080 5 = some 8082 ∧
    (8080 ≤ 8082 ∧ 8082 < 8080 + 5 ∧ (fun q => decide (q = 8082)) 8082 = true ∧
      ∀ q, 8080 ≤ q → q < 8082 → (fun q => decide (q = 8082)) q = false) := by
  have h : find_available_port (fun q => decide (q = 8082)) 8080 5 = some 8082 := by
    decide
  exact ⟨h, (C10_first_available_port (fun q => decide (q = 8082)) 8080 5 8082).1 h⟩
